import Mathlib

/-!
Shallow embedding of the OpenSearch paper-search subsystem:
`src/services/opensearch/query_builder.py` (PaperQueryBuilder) and
`src/services/opensearch/client.py` (OpenSearchClient).

Python dictionaries with a fixed key set are records; optional keys are
`Option`; Python truthiness of strings/lists is non-emptiness; exceptions
are an `Except String` channel.  Engine (network) behaviour is passed in
explicitly as the outcome the engine would report for the call.
-/

/-- One clause of the boolean query's `must` list, as built by
`_build_text_query` (a `multi_match`) or the `match_all` fallback. -/
inductive QueryClause where
  | multiMatch (query : String) (fields : List String) (type_ : String)
      (operator : String) (fuzziness : String) (prefix_length : Nat)
  | matchAll
deriving DecidableEq, Repr

/-- One filter clause, as built by `_build_filters`: an exact-match
`terms` filter on a field. -/
inductive FilterClause where
  | terms (field : String) (values : List String)
deriving DecidableEq, Repr

/-- The `bool` query object returned by `_build_query`.  The `filter` key
is present only when the local `filter_clauses` collection is truthy. -/
structure BoolQuery where
  must : List QueryClause
  filter : Option (List FilterClause)
deriving DecidableEq, Repr

/-- One entry of the `sort` list: `{"published_date": {"order": o}}` is
`byField "published_date" o`; the bare string `"_score"` is `score`. -/
inductive SortKey where
  | byField (field : String) (order : String)
  | score
deriving DecidableEq, Repr

/-- Per-field highlight options from `_build_highlight`; `pre_tags` and
`post_tags` are omitted for `title` in the source, hence `Option`. -/
structure HighlightField where
  fragment_size : Nat
  number_of_fragments : Nat
  pre_tags : Option (List String)
  post_tags : Option (List String)
deriving DecidableEq, Repr

/-- The `highlight` object returned by `_build_highlight`. -/
structure Highlight where
  title : HighlightField
  abstract : HighlightField
  authors : HighlightField
  require_field_match : Bool
deriving DecidableEq, Repr

/-- The request body returned by `PaperQueryBuilder.build`.  The `sort`
key is absent (`none`) when `_build_sort` returns `None` or an empty
(falsy) list. -/
structure QueryBody where
  query : BoolQuery
  size : Int
  from_ : Int
  track_total_hits : Bool
  source_fields : List String
  highlight : Highlight
  sort : Option (List SortKey)
deriving DecidableEq, Repr

/-- The state of a `PaperQueryBuilder` after `__init__`.  `fields` holds
the already-defaulted list (`fields or ["title^3","abstract^2","authors^1"]`);
`categories` keeps the `Optional[List[str]]` shape. -/
structure PaperQueryBuilder where
  query : String
  size : Int
  from_ : Int
  fields : List String
  categories : Option (List String)
  track_total_hits : Bool
  latest_papers : Bool
deriving DecidableEq, Repr

/-- Python's `str.strip()` with no argument: drop leading and trailing
whitespace characters. -/
def pyStrip (s : String) : String :=
  String.mk (((s.data.dropWhile Char.isWhitespace).reverse.dropWhile
    Char.isWhitespace).reverse)

namespace PaperQueryBuilder

/-- Default weighted field list from `__init__`. -/
def defaultFields : List String := ["title^3", "abstract^2", "authors^1"]

/-- The `fields or [...]` defaulting in `__init__`: `None` and the empty
list are both falsy in Python and fall back to the default. -/
def initFields : Option (List String) → List String
  | some fs => if fs = [] then defaultFields else fs
  | none => defaultFields

/-- Python truthiness of `self.categories` (an `Optional[List[str]]`):
truthy exactly when it is a non-empty list. -/
def categoriesTruthy (b : PaperQueryBuilder) : Bool :=
  match b.categories with
  | some cs => !cs.isEmpty
  | none => false

/-- `PaperQueryBuilder._build_text_query`. -/
def buildTextQuery (b : PaperQueryBuilder) : QueryClause :=
  QueryClause.multiMatch b.query b.fields "best_fields" "or" "AUTO" 2

/-- `PaperQueryBuilder._build_filters`: a `terms` filter on `categories`
when that list is truthy.  (This method exists in the source but is never
invoked by `_build_query`.) -/
def buildFilters (b : PaperQueryBuilder) : List FilterClause :=
  if b.categoriesTruthy then [FilterClause.terms "categories" (b.categories.getD [])]
  else []

/-- `PaperQueryBuilder._build_query`.  The local `filter_clauses` is the
literal empty dict `{}` in the source — `_build_filters` is never called —
so the `filter` key is never attached. -/
def buildQueryClause (b : PaperQueryBuilder) : BoolQuery :=
  let must_clauses : List QueryClause :=
    if pyStrip b.query = "" then [] else [b.buildTextQuery]
  let filter_clauses : List FilterClause := []
  { must := if must_clauses.isEmpty then [QueryClause.matchAll] else must_clauses
    filter := if filter_clauses.isEmpty then none else some filter_clauses }

/-- `PaperQueryBuilder._build_source_fields`; the source lists
`"authors"` twice. -/
def buildSourceFields : List String :=
  ["arxiv_id", "title", "authors", "abstract", "authors", "categories",
   "published_date", "pdf_url"]

/-- `PaperQueryBuilder._build_highlight`. -/
def buildHighlight : Highlight :=
  { title := { fragment_size := 0, number_of_fragments := 0,
               pre_tags := none, post_tags := none }
    abstract := { fragment_size := 150, number_of_fragments := 3,
                  pre_tags := some ["<mark>"], post_tags := some ["</mark>"] }
    authors := { fragment_size := 0, number_of_fragments := 0,
                 pre_tags := some ["<mark>"], post_tags := some ["</mark>"] }
    require_field_match := false }

/-- `PaperQueryBuilder._build_sort`: the two-key recency sort when
`latest_papers` is set or the stripped query is empty; otherwise `None`. -/
def buildSort (b : PaperQueryBuilder) : Option (List SortKey) :=
  if b.latest_papers then
    some [SortKey.byField "published_date" "desc", SortKey.score]
  else if pyStrip b.query ≠ "" then
    none
  else
    some [SortKey.byField "published_date" "desc", SortKey.score]

/-- `PaperQueryBuilder.build`: assembles the body; the `sort` key is set
only when `_build_sort` returned a truthy (non-`None`, non-empty) value. -/
def build (b : PaperQueryBuilder) : QueryBody :=
  { query := b.buildQueryClause
    size := b.size
    from_ := b.from_
    track_total_hits := b.track_total_hits
    source_fields := buildSourceFields
    highlight := buildHighlight
    sort := match b.buildSort with
      | some s => if s.isEmpty then none else some s
      | none => none }

end PaperQueryBuilder

/-- A builder as constructed by `search_papers` / `__init__` from the raw
arguments (applying the `fields` defaulting). -/
def mkBuilder (query : String) (size : Int) (from_ : Int)
    (fields : Option (List String)) (categories : Option (List String))
    (track_total_hits : Bool) (latest_papers : Bool) : PaperQueryBuilder :=
  { query := query, size := size, from_ := from_
    fields := PaperQueryBuilder.initFields fields
    categories := categories
    track_total_hits := track_total_hits
    latest_papers := latest_papers }

/-- The `authors` value of a paper dict: the source distinguishes a
Python `list` (normalized) from any other value (left unchanged),
modelled here as a string. -/
inductive AuthorsVal where
  | list : List String → AuthorsVal
  | str : String → AuthorsVal
deriving DecidableEq, Repr

/-- A paper document as a dict over the fixed field names; `Option`
fields model key presence (`some ""` is a present-but-empty value). -/
structure Paper where
  arxiv_id : Option String := none
  title : Option String := none
  abstract : Option String := none
  authors : Option AuthorsVal := none
  categories : Option (List String) := none
  published_date : Option String := none
  pdf_url : Option String := none
  created_at : Option String := none
  updated_at : Option String := none
deriving DecidableEq, Repr

/-- Result of `_prepare_paper_data` together with the state of the
caller's `paper_data` dict after the call: the source copies the dict
(`paper_data.copy()`) and applies `setdefault` / the authors
normalization to the copy only. -/
structure PrepareTrace where
  result : Option Paper
  callerDoc : Paper
deriving DecidableEq, Repr

/-- `OpenSearchClient._prepare_paper_data`: reject a dict missing the
`arxiv_id` key; otherwise copy, default-fill `created_at`/`updated_at`
with `now`, and join a list-valued `authors` with a comma-space. -/
def preparePaperData (now : String) (paper_data : Paper) : PrepareTrace :=
  if paper_data.arxiv_id.isNone then
    { result := none, callerDoc := paper_data }
  else
    let prepared_data := paper_data
    let prepared_data :=
      { prepared_data with created_at := some (prepared_data.created_at.getD now) }
    let prepared_data :=
      { prepared_data with updated_at := some (prepared_data.updated_at.getD now) }
    let prepared_data :=
      match prepared_data.authors with
      | some (AuthorsVal.list xs) =>
          { prepared_data with authors := some (AuthorsVal.str (String.intercalate ", " xs)) }
      | _ => prepared_data
    { result := some prepared_data, callerDoc := paper_data }

/-- A write request issued to `client.index`. -/
structure WriteReq where
  index : String
  id : String
  body : Paper
  refresh : Bool
deriving DecidableEq, Repr

/-- The engine's reply to a `client.index` call: a response whose
`result` field is read with `.get` (hence `Option`), or a raised
`OpenSearchException` with a message. -/
inductive IndexOutcome where
  | resp (result : Option String)
  | engineError (msg : String)
deriving DecidableEq, Repr

/-- What `index_paper` did: its return value (it catches every
`OpenSearchException`, so in this embedding it always returns a `Bool`)
and the write requests it issued. -/
structure IndexPaperTrace where
  returned : Bool
  writes : List WriteReq
  callerDoc : Paper
deriving DecidableEq, Repr

/-- The body of the `try` block in `index_paper`: validate via
`_prepare_paper_data` (a `False` return with no write on failure), else
write under the `arxiv_id` with `refresh=True`; `result in
["created","updated"]` is success.  The first component is the block's
return value or the `OpenSearchException` raised by the write; the
second records the write requests issued. -/
def indexPaperTry (indexName : String) (now : String)
    (engine : WriteReq → IndexOutcome) (paper_data : Paper) :
    Except String Bool × List WriteReq :=
  match (preparePaperData now paper_data).result with
  | none => (Except.ok false, [])
  | some validated_data =>
    let req : WriteReq :=
      { index := indexName, id := validated_data.arxiv_id.getD ""
        body := validated_data, refresh := true }
    ((match engine req with
      | IndexOutcome.resp r =>
        Except.ok (r = some "created" ∨ r = some "updated" : Bool)
      | IndexOutcome.engineError msg => Except.error msg), [req])

/-- `OpenSearchClient.index_paper`: run the `try` body; the `except
OpenSearchException` clause logs and returns `False`, so an engine
failure is converted into a `false` return, never re-raised. -/
def indexPaper (indexName : String) (now : String)
    (engine : WriteReq → IndexOutcome) (paper_data : Paper) : IndexPaperTrace :=
  match indexPaperTry indexName now engine paper_data with
  | (Except.ok b, writes) =>
    { returned := b, writes := writes
      callerDoc := (preparePaperData now paper_data).callerDoc }
  | (Except.error _, writes) =>
    { returned := false, writes := writes
      callerDoc := (preparePaperData now paper_data).callerDoc }

/-- Aggregate result of `bulk_index_papers`. -/
structure BulkIndexResult where
  success : Nat
  failed : Nat
deriving DecidableEq, Repr

/-- `OpenSearchClient.bulk_index_papers`: iterate the papers in order,
calling `index_paper` on each and counting its boolean result. -/
def bulkIndexPapers (indexName : String) (now : String)
    (engine : WriteReq → IndexOutcome) :
    List Paper → BulkIndexResult → BulkIndexResult
  | [], results => results
  | paper :: rest, results =>
    if (indexPaper indexName now engine paper).returned then
      bulkIndexPapers indexName now engine rest
        { results with success := results.success + 1 }
    else
      bulkIndexPapers indexName now engine rest
        { results with failed := results.failed + 1 }

/-- A raw hit from the engine's search response:
`{_source, _score, highlight?}`.  The score is carried through verbatim
and never computed on, so it is modelled as an integer token. -/
structure RawHit where
  source : Paper
  score : Int
  highlight : Option (List (String × List String))
deriving DecidableEq, Repr

/-- The raw engine search response consumed by `_format_search_results`:
`{hits: {total: {value}, hits: [...]}}`. -/
structure RawResponse where
  total : Int
  hits : List RawHit
deriving DecidableEq, Repr

/-- The engine's reply to `client.search`: a response, a raised
`NotFoundError`, or any other raised `OpenSearchException`. -/
inductive SearchOutcome where
  | ok (response : RawResponse)
  | notFound
  | engineError (msg : String)
deriving DecidableEq, Repr

/-- One formatted hit: the source document with its `score` attached and,
when the engine sent highlight fragments, a `highlights` key. -/
structure FormattedHit where
  paper : Paper
  score : Int
  highlights : Option (List (String × List String))
deriving DecidableEq, Repr

/-- The `SearchResult` shape returned by `search_papers`. -/
structure SearchResult where
  total : Int
  hits : List FormattedHit
  error : Option String
deriving DecidableEq, Repr

/-- `OpenSearchClient._format_search_results`: copy the total, attach
`score` (and `highlights` when present) to each hit's source. -/
def formatSearchResults (response : RawResponse) : SearchResult :=
  { total := response.total
    hits := response.hits.map fun hit =>
      { paper := hit.source, score := hit.score, highlights := hit.highlight }
    error := none }

/-- `OpenSearchClient.search_papers`: build the request body from the
arguments, send it, and format the response; `NotFoundError` becomes
`{total: 0, hits: [], error: "Index not found"}` and any other
`OpenSearchException` becomes `{total: 0, hits: [], error: str(e)}` —
neither propagates. -/
def searchPapers (query : String) (size : Int) (from_ : Int)
    (fields : Option (List String)) (categories : Option (List String))
    (track_total_hits : Bool) (latest_papers : Bool)
    (engine : QueryBody → SearchOutcome) : SearchResult :=
  let query_builder :=
    mkBuilder query size from_ fields categories track_total_hits latest_papers
  let search_body := query_builder.build
  match engine search_body with
  | SearchOutcome.ok response => formatSearchResults response
  | SearchOutcome.notFound =>
    { total := 0, hits := [], error := some "Index not found" }
  | SearchOutcome.engineError msg =>
    { total := 0, hits := [], error := some msg }

/-- A minimal analyzed-vs-exact field typing, enough to state the fixed
index mapping. -/
inductive FieldType where
  | text
  | keyword
  | date
deriving DecidableEq, Repr

/-- Modelled from the spec: the fixed schema mapping
`ARXIV_PAPERS_MAPPING` lives in `index_config.py`, which is not under
`src/`; per the spec it covers full-text `title`/`abstract`, exact-match
`categories`/`arxiv_id`, date-typed `published_date`, and keyword
`pdf_url`. -/
def ARXIV_PAPERS_MAPPING : List (String × FieldType) :=
  [("title", FieldType.text), ("abstract", FieldType.text),
   ("categories", FieldType.keyword), ("arxiv_id", FieldType.keyword),
   ("published_date", FieldType.date), ("pdf_url", FieldType.keyword)]

/-- The engine's reply to `client.indices.create`: a response whose
`acknowledged` field may be truthy or not, a raised `RequestError`
(which is how the engine reports "index already exists"), or another
raised `OpenSearchException`. -/
inductive CreateOutcome where
  | acknowledged (ack : Bool)
  | requestError (msg : String)
  | engineError (msg : String)
deriving DecidableEq, Repr

/-- The engine state and replies for one `create_index` call: what
`indices.exists` returns, whether `indices.delete` raises, and what
`indices.create` reports. -/
structure CreateEngine where
  indexExists : Bool
  deleteError : Option String
  createOutcome : CreateOutcome
deriving DecidableEq, Repr

/-- An engine call issued during `create_index`, with the mapping body
recorded for the create call. -/
inductive IndexAction where
  | deleteIdx
  | createIdx (mapping : List (String × FieldType))
deriving DecidableEq, Repr

/-- `OpenSearchClient._create_index`: create with the fixed mapping and
return the truthiness of `response.get("acknowledged")`; a raised error
propagates (the `try` in `create_index` only logs and re-raises). -/
def createIndexInner (eng : CreateEngine) (acts : List IndexAction) :
    Except String (Bool × List IndexAction) :=
  let acts := acts ++ [IndexAction.createIdx ARXIV_PAPERS_MAPPING]
  match eng.createOutcome with
  | CreateOutcome.acknowledged ack => Except.ok (ack, acts)
  | CreateOutcome.requestError msg => Except.error msg
  | CreateOutcome.engineError msg => Except.error msg

/-- `OpenSearchClient.create_index`: if the index exists and `force` is
unset, return `False`; if it exists and `force` is set, delete it first;
then `_create_index`.  The `except` clauses log and `raise`, so every
engine error propagates. -/
def createIndex (eng : CreateEngine) (force : Bool) :
    Except String (Bool × List IndexAction) :=
  if eng.indexExists then
    if force then
      match eng.deleteError with
      | some msg => Except.error msg
      | none => createIndexInner eng [IndexAction.deleteIdx]
    else
      Except.ok (false, [])
  else
    createIndexInner eng []

/-- A generic JSON-like value, for engine responses whose shape the
client only walks with `.get` / `[...]` (cluster info, health, mapping,
settings, stats). -/
inductive JVal where
  | s : String → JVal
  | n : Int → JVal
  | obj : List (String × JVal) → JVal
deriving Repr

/-- Dict lookup with the empty-dict default, as in `d.get(k, {})`. -/
def jGet (v : JVal) (key : String) : JVal :=
  match v with
  | JVal.obj kvs => (kvs.lookup key).getD (JVal.obj [])
  | _ => JVal.obj []

/-- The `IndexStats` dict assembled by `get_index_stats`. -/
structure IndexStats where
  index_name : String
  document_count : JVal
  size_in_bytes : JVal
  health : JVal
deriving Repr

/-- `OpenSearchClient.get_index_stats`: three engine calls in source
order (`indices.stats`, `count`, `cluster.health`); the `except` clause
logs and re-raises, so an `OpenSearchException` from any of them
propagates. -/
def getIndexStats (indexName : String)
    (stats countResp health : Except String JVal) : Except String IndexStats :=
  match stats with
  | Except.error e => Except.error e
  | Except.ok statsV =>
    match countResp with
    | Except.error e => Except.error e
    | Except.ok countV =>
      match health with
      | Except.error e => Except.error e
      | Except.ok healthV =>
        Except.ok
          { index_name := indexName
            document_count := jGet countV "count"
            size_in_bytes :=
              jGet (jGet (jGet (jGet (jGet statsV "indices") indexName) "total")
                "store") "size_in_bytes"
            health := jGet healthV "status" }

/-- `OpenSearchClient.health_check`: returns whether the cluster status
is `green` or `yellow`; an `OpenSearchException` is caught and turned
into a `False` return (never re-raised). -/
def healthCheck (health : Except String JVal) : Except String Bool :=
  match health with
  | Except.ok h =>
    Except.ok (match jGet h "status" with
      | JVal.s status => status = "green" ∨ status = "yellow"
      | _ => false)
  | Except.error _ => Except.ok false

/-- `OpenSearchClient.get_cluster_info`: returns `client.info()`
unchanged; the `except` clause logs and re-raises. -/
def getClusterInfo (info : Except String JVal) : Except String JVal :=
  match info with
  | Except.ok v => Except.ok v
  | Except.error e => Except.error e

/-- `OpenSearchClient.get_cluster_health`: returns `cluster.health()`
unchanged; the `except` clause logs and re-raises. -/
def getClusterHealth (health : Except String JVal) : Except String JVal :=
  match health with
  | Except.ok v => Except.ok v
  | Except.error e => Except.error e

/-- `OpenSearchClient.get_index_mapping`: extracts
`mappings.get(index_name, {}).get("mappings", {})`; the `except` clause
logs and re-raises. -/
def getIndexMapping (indexName : String) (mappings : Except String JVal) :
    Except String JVal :=
  match mappings with
  | Except.ok v => Except.ok (jGet (jGet v indexName) "mappings")
  | Except.error e => Except.error e

/-- `OpenSearchClient.get_index_settings`: extracts
`settings.get(index_name, {}).get("settings", {})`; the `except` clause
logs and re-raises. -/
def getIndexSettings (indexName : String) (settingsResp : Except String JVal) :
    Except String JVal :=
  match settingsResp with
  | Except.ok v => Except.ok (jGet (jGet v indexName) "settings")
  | Except.error e => Except.error e

/-- Claim C1: the claim says a builder with a non-empty categories list
produces a body with a terms filter on `categories`.  The code drops it:
at the concrete builder below, `_build_filters` would produce exactly
that filter, yet `_build_query` (which initializes `filter_clauses` to a
literal empty dict and never calls `_build_filters`) attaches no filter
clause, so the built body's bool query has `filter` absent. -/
theorem C1_categories_filter_dropped :
    (mkBuilder "graph" 10 0 none (some ["cs.AI"]) true false).build.query.filter = none
    ∧ PaperQueryBuilder.buildFilters
        (mkBuilder "graph" 10 0 none (some ["cs.AI"]) true false)
      = [FilterClause.terms "categories" ["cs.AI"]] := by
  constructor <;> rfl

/-- Claim C2: a builder with non-empty stripped text and relevance mode
(`latest_papers = false`) yields a body with no sort key; recency mode
(`latest_papers = true`) or empty/whitespace-only text yields exactly the
two-key sort (published_date descending, then relevance score). -/
theorem C2_sort_clause (b : PaperQueryBuilder) :
    (pyStrip b.query ≠ "" ∧ b.latest_papers = false → b.build.sort = none)
    ∧ (b.latest_papers = true ∨ pyStrip b.query = "" →
        b.build.sort
          = some [SortKey.byField "published_date" "desc", SortKey.score]) := by
  constructor
  · rintro ⟨hq, hl⟩
    simp [PaperQueryBuilder.build, PaperQueryBuilder.buildSort, hl, hq]
  · rintro (hl | hq)
    · simp [PaperQueryBuilder.build, PaperQueryBuilder.buildSort, hl]
    · simp [PaperQueryBuilder.build, PaperQueryBuilder.buildSort, hq]

/-- Witness for C2 at concrete builders: text "graph" with relevance mode
has no sort key; empty text with recency mode has the two-key sort. -/
theorem C2_sort_clause_witness :
    (mkBuilder "graph" 10 0 none none true false).build.sort = none
    ∧ (mkBuilder "" 10 0 none none true true).build.sort
      = some [SortKey.byField "published_date" "desc", SortKey.score] :=
  ⟨(C2_sort_clause _).1 ⟨by decide, rfl⟩, (C2_sort_clause _).2 (Or.inl rfl)⟩

/-- Claim C3 counterexample: the claim says any document lacking a
non-empty `arxiv_id` — including one whose `arxiv_id` is present but the
empty string — gets a `false` return and no write.  The validation only
checks key presence, so with `arxiv_id = ""` the write is issued (under
the empty-string identifier) and, when the engine reports `created`,
`index_paper` returns `true`. -/
theorem C3_empty_arxiv_id_counterexample :
    (indexPaper "arxiv-papers" "2026-10-12T00:00:00+00:00"
      (fun _ => IndexOutcome.resp (some "created"))
      { arxiv_id := some "" }).returned = true
    ∧ (indexPaper "arxiv-papers" "2026-10-12T00:00:00+00:00"
      (fun _ => IndexOutcome.resp (some "created"))
      { arxiv_id := some "" }).writes
      = [{ index := "arxiv-papers", id := ""
           body := { arxiv_id := some ""
                     created_at := some "2026-10-12T00:00:00+00:00"
                     updated_at := some "2026-10-12T00:00:00+00:00" }
           refresh := true }] := by
  constructor <;> rfl

/-- Claim C3 (amended): for every document in which the `arxiv_id` key is
absent, `index_paper` returns `false` without raising and performs no
write; a present-but-empty `arxiv_id` passes validation and a write is
attempted under the empty identifier. -/
theorem C3_missing_arxiv_id_no_write (indexName now : String)
    (engine : WriteReq → IndexOutcome) (p : Paper) (h : p.arxiv_id = none) :
    (indexPaper indexName now engine p).returned = false
    ∧ (indexPaper indexName now engine p).writes = [] := by
  simp [indexPaper, indexPaperTry, preparePaperData, h]

/-- Witness for the amended C3 at a concrete document with no `arxiv_id`
key. -/
theorem C3_missing_arxiv_id_no_write_witness :
    (indexPaper "arxiv-papers" "2026-10-12T00:00:00+00:00"
      (fun _ => IndexOutcome.resp (some "created")) {}).returned = false
    ∧ (indexPaper "arxiv-papers" "2026-10-12T00:00:00+00:00"
      (fun _ => IndexOutcome.resp (some "created")) {}).writes = [] :=
  C3_missing_arxiv_id_no_write _ _ _ _ rfl

/-- Claim C10: `index_paper` (via `_prepare_paper_data`, which copies the
dict before the `setdefault` calls and the authors normalization) leaves
the caller's document exactly as supplied. -/
theorem C10_caller_doc_unchanged (indexName now : String)
    (engine : WriteReq → IndexOutcome) (p : Paper) :
    (indexPaper indexName now engine p).callerDoc = p
    ∧ (preparePaperData now p).callerDoc = p := by
  have hprep : (preparePaperData now p).callerDoc = p := by
    unfold preparePaperData; split <;> rfl
  refine ⟨?_, hprep⟩
  unfold indexPaper
  split <;> simp [hprep]

/-- The write requests `index_paper` issues are exactly those of its
`try` body (the `except` clause issues none of its own). -/
theorem indexPaper_writes_eq (indexName now : String)
    (engine : WriteReq → IndexOutcome) (p : Paper) :
    (indexPaper indexName now engine p).writes
      = (indexPaperTry indexName now engine p).2 := by
  unfold indexPaper
  split <;> rename_i heq <;> rw [heq]

/-- Claim C8: whenever `index_paper` writes (i.e. validation passed), the
written body's `authors` is the comma-space join of the names when the
input's `authors` was a list, and is the input value unchanged otherwise;
the write is issued under the document's `arxiv_id`. -/
theorem C8_authors_normalized (indexName now : String)
    (engine : WriteReq → IndexOutcome) (p : Paper) (id : String)
    (h : p.arxiv_id = some id) :
    ∃ req, (indexPaper indexName now engine p).writes = [req]
      ∧ req.body.authors = (match p.authors with
          | some (AuthorsVal.list names) =>
            some (AuthorsVal.str (String.intercalate ", " names))
          | other => other)
      ∧ req.id = id := by
  rw [indexPaper_writes_eq]
  unfold indexPaperTry preparePaperData
  simp only [h, Option.isNone_some, Bool.false_eq_true, if_false, ite_false]
  rcases p.authors with _ | av
  · exact ⟨_, rfl, rfl, rfl⟩
  · rcases av with names | s
    · exact ⟨_, rfl, rfl, rfl⟩
    · exact ⟨_, rfl, rfl, rfl⟩

/-- Witness for C8: the two-author list becomes the string "A, B" in the
written body. -/
theorem C8_authors_normalized_witness :
    ∃ req,
      (indexPaper "arxiv-papers" "2026-10-12T00:00:00+00:00"
        (fun _ => IndexOutcome.resp (some "created"))
        { arxiv_id := some "2401.00001"
          authors := some (AuthorsVal.list ["A", "B"]) }).writes = [req]
      ∧ req.body.authors
        = (match (some (AuthorsVal.list ["A", "B"]) : Option AuthorsVal) with
           | some (AuthorsVal.list names) =>
             some (AuthorsVal.str (String.intercalate ", " names))
           | other => other)
      ∧ req.id = "2401.00001" :=
  C8_authors_normalized _ _ _ _ _ rfl

/-- Claim C6 counterexample: at a document that passes validation and an
engine whose write raises an `OpenSearchException`, the `try` body of
`index_paper` ends in the raised error, yet `index_paper` returns
normally with `false` — the exception is caught, not propagated. -/
theorem C6_engine_error_counterexample :
    (indexPaperTry "arxiv-papers" "2026-10-12T00:00:00+00:00"
      (fun _ => IndexOutcome.engineError "connection reset")
      { arxiv_id := some "2401.00001" }).1 = Except.error "connection reset"
    ∧ (indexPaper "arxiv-papers" "2026-10-12T00:00:00+00:00"
      (fun _ => IndexOutcome.engineError "connection reset")
      { arxiv_id := some "2401.00001" }).returned = false := by
  constructor <;> rfl

/-- Claim C6 (amended): a transport/engine failure during the write is
caught by `index_paper` and converted into a `false` return — the raised
`OpenSearchException` visible at the end of the `try` body never reaches
the caller. -/
theorem C6_engine_error_soft_fail (indexName now msg : String)
    (engine : WriteReq → IndexOutcome) (p : Paper) (id : String)
    (h : p.arxiv_id = some id)
    (hE : ∀ req, engine req = IndexOutcome.engineError msg) :
    (indexPaperTry indexName now engine p).1 = Except.error msg
    ∧ (indexPaper indexName now engine p).returned = false := by
  have htry : (indexPaperTry indexName now engine p).1 = Except.error msg := by
    unfold indexPaperTry preparePaperData
    simp [h, hE]
  refine ⟨htry, ?_⟩
  unfold indexPaper
  split <;> rename_i heq
  · rw [heq] at htry; simp at htry
  · rfl

/-- Witness for the amended C6 at a concrete valid document and an
always-failing engine. -/
theorem C6_engine_error_soft_fail_witness :
    (indexPaperTry "arxiv-papers" "T" (fun _ => IndexOutcome.engineError "boom")
      { arxiv_id := some "x" }).1 = Except.error "boom"
    ∧ (indexPaper "arxiv-papers" "T" (fun _ => IndexOutcome.engineError "boom")
      { arxiv_id := some "x" }).returned = false :=
  C6_engine_error_soft_fail _ _ _ _ _ _ rfl (fun _ => rfl)

/-- Under an engine that reports `created` for every write, `index_paper`
returns `true` exactly on the documents whose `arxiv_id` key is present. -/
theorem indexPaper_returned_of_created (indexName now : String)
    (engine : WriteReq → IndexOutcome)
    (h : ∀ req, engine req = IndexOutcome.resp (some "created"))
    (p : Paper) :
    (indexPaper indexName now engine p).returned = p.arxiv_id.isSome := by
  unfold indexPaper indexPaperTry preparePaperData
  rcases haid : p.arxiv_id with _ | id <;> simp [haid, h]

/-- Accumulator form of the bulk-count bookkeeping: with an all-`created`
engine, `bulk_index_papers` adds to the running counters one success per
document with an `arxiv_id` key and one failure per document without. -/
theorem bulkIndexPapers_counts_acc (indexName now : String)
    (engine : WriteReq → IndexOutcome)
    (h : ∀ req, engine req = IndexOutcome.resp (some "created"))
    (papers : List Paper) :
    ∀ acc : BulkIndexResult,
      bulkIndexPapers indexName now engine papers acc
        = { success := acc.success + papers.countP (fun p => p.arxiv_id.isSome)
            failed := acc.failed + papers.countP (fun p => p.arxiv_id.isNone) } := by
  induction papers with
  | nil => intro acc; simp [bulkIndexPapers]
  | cons paper rest ih =>
    intro acc
    have hret := indexPaper_returned_of_created indexName now engine h paper
    rcases haid : paper.arxiv_id with _ | id <;>
      rw [haid] at hret <;> simp only [Option.isSome_none, Option.isSome_some] at hret <;>
      rw [bulkIndexPapers, hret] <;>
      simp [ih, List.countP_cons, haid, BulkIndexResult.mk.injEq] <;>
      omega

/-- In any paper list, the documents with an `arxiv_id` key and those
without partition the list. -/
theorem countP_arxiv_id_partition (papers : List Paper) :
    papers.countP (fun p => p.arxiv_id.isSome)
      + papers.countP (fun p => p.arxiv_id.isNone) = papers.length := by
  induction papers with
  | nil => simp
  | cons a l ih =>
    rcases haid : a.arxiv_id with _ | id <;>
      simp [List.countP_cons, haid, ih] <;> omega

/-- Claim C7: over N documents of which exactly K lack the `arxiv_id` key,
with every issued write succeeding, `bulk_index_papers` (which calls
`index_paper` once per document, in order) returns
`{success: N-K, failed: K}`. -/
theorem C7_bulk_counts (indexName now : String)
    (engine : WriteReq → IndexOutcome) (papers : List Paper)
    (h : ∀ req, engine req = IndexOutcome.resp (some "created")) :
    bulkIndexPapers indexName now engine papers { success := 0, failed := 0 }
      = { success := papers.length - papers.countP (fun p => p.arxiv_id.isNone)
          failed := papers.countP (fun p => p.arxiv_id.isNone) } := by
  rw [bulkIndexPapers_counts_acc indexName now engine h papers]
  have hpart := countP_arxiv_id_partition papers
  simp only [BulkIndexResult.mk.injEq]
  refine ⟨?_, ?_⟩ <;> omega

/-- Witness for C7: three documents of which one lacks `arxiv_id` give
`{success: 2, failed: 1}`. -/
theorem C7_bulk_counts_witness :
    bulkIndexPapers "arxiv-papers" "2026-10-12T00:00:00+00:00"
      (fun _ => IndexOutcome.resp (some "created"))
      [{ arxiv_id := some "2401.00001" }, {}, { arxiv_id := some "2401.00002" }]
      { success := 0, failed := 0 }
      = { success := 2, failed := 1 } := by
  have hmain := C7_bulk_counts "arxiv-papers" "2026-10-12T00:00:00+00:00"
    (fun _ => IndexOutcome.resp (some "created"))
    [{ arxiv_id := some "2401.00001" }, {}, { arxiv_id := some "2401.00002" }]
    (fun _ => rfl)
  exact hmain.trans (by decide)

/-- Claim C4: `search_papers` never propagates an engine-reported search
failure: a `NotFoundError` yields exactly
`{total: 0, hits: [], error: "Index not found"}` and any other
`OpenSearchException` yields `{total: 0, hits: [], error: <message>}`,
both with an empty result set. -/
theorem C4_search_soft_fail (query : String) (size from_ : Int)
    (fields categories : Option (List String))
    (track_total_hits latest_papers : Bool)
    (engine : QueryBody → SearchOutcome) :
    (engine (mkBuilder query size from_ fields categories
        track_total_hits latest_papers).build = SearchOutcome.notFound →
      searchPapers query size from_ fields categories
        track_total_hits latest_papers engine
        = { total := 0, hits := [], error := some "Index not found" })
    ∧ (∀ msg,
      engine (mkBuilder query size from_ fields categories
        track_total_hits latest_papers).build = SearchOutcome.engineError msg →
      searchPapers query size from_ fields categories
        track_total_hits latest_papers engine
        = { total := 0, hits := [], error := some msg }) := by
  constructor
  · intro hE
    simp [searchPapers, hE]
  · intro msg hE
    simp [searchPapers, hE]

/-- Witness for C4 at concrete arguments: an engine that reports
index-not-found, and one that raises with a message. -/
theorem C4_search_soft_fail_witness :
    searchPapers "graph" 10 0 none none true false
      (fun _ => SearchOutcome.notFound)
      = { total := 0, hits := [], error := some "Index not found" }
    ∧ searchPapers "graph" 10 0 none none true false
      (fun _ => SearchOutcome.engineError "parse_exception")
      = { total := 0, hits := [], error := some "parse_exception" } :=
  ⟨(C4_search_soft_fail "graph" 10 0 none none true false
      (fun _ => SearchOutcome.notFound)).1 rfl,
   (C4_search_soft_fail "graph" 10 0 none none true false
      (fun _ => SearchOutcome.engineError "parse_exception")).2
      "parse_exception" rfl⟩

/-- Claim C5 counterexample: the claim says an engine-reported "index
already exists" on the create attempt is the normal `false`-return
branch.  In the code that report is a `RequestError`, and the `except
RequestError` clause re-raises it: with the pre-check seeing no index
and the create reporting already-exists, `create_index` ends in the
propagated error, not in a `false` return. -/
theorem C5_already_exists_counterexample :
    createIndex
      { indexExists := false, deleteError := none
        createOutcome := CreateOutcome.requestError
          "resource_already_exists_exception" } false
      = Except.error "resource_already_exists_exception" := by
  rfl

/-- Claim C5 (amended): `create_index` returns `true` exactly when the
engine acknowledges a create; it returns `false` without a create
attempt when the pre-check finds the index present and `force` is unset;
with `force` set and the index present it deletes and then recreates
with the fixed schema mapping; and an engine error on the create attempt
— including the engine-reported "index already exists" `RequestError` —
propagates instead of returning `false`. -/
theorem C5_create_index (eng : CreateEngine) (force : Bool) :
    (eng.indexExists = true → force = false →
      createIndex eng force = Except.ok (false, []))
    ∧ (∀ ack, eng.indexExists = false →
        eng.createOutcome = CreateOutcome.acknowledged ack →
        createIndex eng force
          = Except.ok (ack, [IndexAction.createIdx ARXIV_PAPERS_MAPPING]))
    ∧ (∀ ack, eng.indexExists = true → eng.deleteError = none →
        eng.createOutcome = CreateOutcome.acknowledged ack →
        createIndex eng true
          = Except.ok (ack, [IndexAction.deleteIdx,
              IndexAction.createIdx ARXIV_PAPERS_MAPPING]))
    ∧ (∀ msg, eng.createOutcome = CreateOutcome.requestError msg →
        (eng.indexExists = false ∨ (force = true ∧ eng.deleteError = none)) →
        createIndex eng force = Except.error msg) := by
  refine ⟨?_, ?_, ?_, ?_⟩
  · intro hex hf
    simp [createIndex, hex, hf]
  · intro ack hex hc
    simp [createIndex, createIndexInner, hex, hc]
  · intro ack hex hdel hc
    simp [createIndex, createIndexInner, hex, hdel, hc]
  · intro msg hc hcase
    rcases hcase with hex | ⟨hf, hdel⟩
    · simp [createIndex, createIndexInner, hex, hc]
    · rcases hex2 : eng.indexExists
      · simp [createIndex, createIndexInner, hex2, hc]
      · simp [createIndex, createIndexInner, hex2, hf, hdel, hc]

/-- Witness for the amended C5: a concrete engine with the index present
and `force` unset returns `false` with no engine action. -/
theorem C5_create_index_witness :
    createIndex
      { indexExists := true, deleteError := none
        createOutcome := CreateOutcome.acknowledged true } false
      = Except.ok (false, []) :=
  (C5_create_index
    { indexExists := true, deleteError := none
      createOutcome := CreateOutcome.acknowledged true } false).1 rfl rfl

/-- Claim C9 counterexample: the claim says every diagnostics accessor —
the health check included — propagates engine errors unchanged.
`health_check` instead catches the `OpenSearchException` and returns
`False`: at a concrete engine error it produces a normal `false` return,
not the propagated error. -/
theorem C9_health_check_counterexample :
    healthCheck (Except.error "connection refused") = Except.ok false
    ∧ healthCheck (Except.error "connection refused")
      ≠ Except.error "connection refused" := by
  refine ⟨rfl, ?_⟩
  intro hcontra
  exact Except.noConfusion hcontra

/-- Claim C9 (amended): of the Cluster Diagnostics accessors, index
stats (whichever of its three engine calls fails), cluster info, cluster
health, mapping and settings propagate engine errors unchanged, while
`health_check` converts an engine error into a soft-fail `false`
return. -/
theorem C9_diagnostics_error_propagation (indexName e : String) :
    (∀ countResp health, getIndexStats indexName (Except.error e) countResp health
      = Except.error e)
    ∧ (∀ statsV health, getIndexStats indexName (Except.ok statsV) (Except.error e) health
      = Except.error e)
    ∧ (∀ statsV countV, getIndexStats indexName (Except.ok statsV) (Except.ok countV)
        (Except.error e) = Except.error e)
    ∧ getClusterInfo (Except.error e) = Except.error e
    ∧ getClusterHealth (Except.error e) = Except.error e
    ∧ getIndexMapping indexName (Except.error e) = Except.error e
    ∧ getIndexSettings indexName (Except.error e) = Except.error e
    ∧ healthCheck (Except.error e) = Except.ok false := by
  exact ⟨fun _ _ => rfl, fun _ _ => rfl, fun _ _ => rfl, rfl, rfl, rfl, rfl, rfl⟩
